import Mathlib

/-!
Shallow embedding of `src/main.rs` of the `terminal_combat` repository
(a minimal interactive terminal menu built on ratatui/crossterm).

Modelling conventions:
  * Rust `usize` values are `Nat`; the only places overflow or truncation
    could matter (`self.choices.len() - 1` on an empty list, `% 0`) are
    runtime panics in Rust and are modelled as `Option.none`.
  * Rust panics (`messages[i]` out of bounds at main.rs:31,
    `self.choices[i]` out of bounds at main.rs:81, `% 0` at main.rs:65,
    usize underflow at main.rs:72, and `.unwrap()` on a failed
    `terminal.draw` at main.rs:121) are modelled as `none` respectively as
    the `LoopResult.panicked` outcome.
  * Terminal input and output are external; one loop iteration of `main`
    (main.rs:161-174) is driven by one `LoopInput` describing the
    observable outcome of the render / poll / read calls of that iteration.
-/

/-- The fixed message table of `App::update_message` (main.rs:26-30). -/
def messages : List String :=
  ["You selected Choice 1!", "You selected Choice 2!", "You selected Choice 3!"]

/-- The empty string, as produced by `String::new()` and used as the
(unreachable) list access default in the lemmas below. -/
def empty_str : String := ""

/-- The panic message of a failed index access. -/
def oob_msg : String := "index out of bounds"

/-- The `App` struct (main.rs:5-11). -/
structure App where
  selected_index : Nat
  selected_item : String
  selected_message : String
  choices : List String
deriving DecidableEq, Repr

/-- `App::new` (main.rs:15-22). -/
def App.new (choices : List String) : App :=
  { selected_index := 0, selected_item := empty_str, selected_message := empty_str, choices := choices }

/-- `App::update_message` (main.rs:25-32): `messages[self.selected_index]`
panics when `selected_index` is not below the fixed table length 3;
the panic is modelled as `none`. -/
def App.update_message (a : App) : Option App :=
  if h : a.selected_index < messages.length then
    some { a with selected_message := messages.get ⟨a.selected_index, h⟩ }
  else
    none

/-- The index update of `App::select_next` (main.rs:65):
`(self.selected_index + 1) % self.choices.len()`. -/
def next_index (n i : Nat) : Nat := (i + 1) % n

/-- The index update of `App::select_previous` (main.rs:71-75): the
zero-branch form `if i == 0 { n - 1 } else { i - 1 }`. -/
def prev_index (n i : Nat) : Nat := if i = 0 then n - 1 else i - 1

/-- `App::select_next` (main.rs:64-67). With an empty choice list the Rust
`%` is a divide-by-zero panic, modelled as `none`; otherwise the index is
updated and `update_message` runs (whose own panic also yields `none`). -/
def App.select_next (a : App) : Option App :=
  if a.choices.length = 0 then none
  else App.update_message { a with selected_index := next_index a.choices.length a.selected_index }

/-- `App::select_previous` (main.rs:70-77). With an empty choice list and
index 0 the Rust `self.choices.len() - 1` underflows usize (panic),
modelled as `none`; otherwise the index is updated and `update_message` runs. -/
def App.select_previous (a : App) : Option App :=
  if a.selected_index = 0 ∧ a.choices.length = 0 then none
  else App.update_message { a with selected_index := prev_index a.choices.length a.selected_index }

/-- `App::confirm_selection` (main.rs:80-83): `self.choices[self.selected_index]`
panics out of bounds (modelled as `none`), then `update_message` runs. -/
def App.confirm_selection (a : App) : Option App :=
  if h : a.selected_index < a.choices.length then
    App.update_message { a with selected_item := a.choices.get ⟨a.selected_index, h⟩ }
  else
    none

/-- Crossterm key codes as observed by `handle_key_event` (main.rs:43-58):
`esc`, `down`, `up`, `enter` are matched explicitly; `char c` stands for
`KeyCode::Char(c)` and `other` for every remaining `KeyCode` variant, all
of which fall into the catch-all arm at main.rs:57. -/
inductive KeyCode where
  | esc
  | down
  | up
  | enter
  | char (c : Char)
  | other
deriving DecidableEq, Repr

/-- Crossterm key event kinds: press, repeat, release. -/
inductive KeyEventKind where
  | press
  | repeat
  | release
deriving DecidableEq, Repr

/-- A crossterm `KeyEvent`, reduced to the fields `handle_key_event` reads. -/
structure KeyEvent where
  code : KeyCode
  kind : KeyEventKind
deriving DecidableEq, Repr

/-- `InputHandler::handle_key_event` (main.rs:39-59). Returns the updated
app and the returned `bool` (`true` means exit); `none` models a panic
inside the invoked `App` operation. -/
def handle_key_event (a : App) (k : KeyEvent) : Option (App × Bool) :=
  if k.kind ≠ KeyEventKind.press then some (a, false)
  else
    match k.code with
    | KeyCode.esc => some (a, true)
    | KeyCode.down => (a.select_next).map (fun a' => (a', false))
    | KeyCode.up => (a.select_previous).map (fun a' => (a', false))
    | KeyCode.enter => (a.confirm_selection).map (fun a' => (a', false))
    | KeyCode.char _ => some (a, false)
    | KeyCode.other => some (a, false)

/-- The observable outcome of the external terminal calls of one iteration
of the `main` loop (main.rs:161-174): the `terminal.draw` inside
`AppPresenter::render` fails with message `m` (`draw_fail`), or the draw
succeeds and `event::poll` fails (`poll_fail`), times out (`timeout`), or
reports an event which `event::read` fails to deliver (`read_fail`), or
delivers as a non-key event (`non_key`) or as the key event `k` (`key`). -/
inductive LoopInput where
  | draw_fail (m : String)
  | poll_fail (m : String)
  | read_fail (m : String)
  | timeout
  | non_key
  | key (k : KeyEvent)
deriving DecidableEq, Repr

/-- Outcome of running the `main` loop on a finite list of iteration
inputs: still looping with state `a` after consuming them all (`running`),
broke out of the loop so `main` returns `Ok(())` (`exit_ok`), an I/O error
was propagated with `?` so `main` returns `Err` (`err_prop`), or the
process panicked (`panicked`). -/
inductive LoopResult where
  | running (a : App)
  | exit_ok (a : App)
  | err_prop (m : String)
  | panicked (m : String)
deriving DecidableEq, Repr

/-- The `main` loop (main.rs:161-174), one `LoopInput` per iteration:
`AppPresenter::render` unwraps a draw failure (panic, main.rs:121);
`event::poll(...)?` and `event::read()?` propagate their errors
(main.rs:166-167); a key event goes through `handle_key_event`, and a
`true` return breaks the loop, after which `main` returns `Ok(())`
(main.rs:169-171, 176). -/
def run_loop (a : App) : List LoopInput → LoopResult
  | [] => LoopResult.running a
  | input :: rest =>
    match input with
    | LoopInput.draw_fail m => LoopResult.panicked m
    | LoopInput.poll_fail m => LoopResult.err_prop m
    | LoopInput.read_fail m => LoopResult.err_prop m
    | LoopInput.timeout => run_loop a rest
    | LoopInput.non_key => run_loop a rest
    | LoopInput.key k =>
      match handle_key_event a k with
      | none => LoopResult.panicked oob_msg
      | some (a', true) => LoopResult.exit_ok a'
      | some (a', false) => run_loop a' rest

/-- Process exit status derived from a loop outcome: `main` returning
`Ok(())` exits with status 0 (`some true`); a propagated error or a panic
terminates the process with a non-zero status (`some false`); `running`
means the process has not terminated (`none`). -/
def exit_success : LoopResult → Option Bool
  | LoopResult.running _ => none
  | LoopResult.exit_ok _ => some true
  | LoopResult.err_prop _ => some false
  | LoopResult.panicked _ => some false

/-- The literal choice list `main` constructs the `App` with (main.rs:154-158). -/
def main_choices : List String := ["Choice 1", "Choice 2", "Choice 3"]

/-- An Escape key press. -/
def esc_press : KeyEvent := { code := KeyCode.esc, kind := KeyEventKind.press }

/-- An ArrowDown key press. -/
def down_press : KeyEvent := { code := KeyCode.down, kind := KeyEventKind.press }

/-- An ArrowUp key press. -/
def up_press : KeyEvent := { code := KeyCode.up, kind := KeyEventKind.press }

/-- An Enter key press. -/
def enter_press : KeyEvent := { code := KeyCode.enter, kind := KeyEventKind.press }

/-- A single selection move, as invoked by the ArrowDown / ArrowUp arms of
`handle_key_event` (main.rs:45-52). -/
inductive Move where
  | next
  | prev
deriving DecidableEq, Repr

/-- Apply one selection move to the app state. -/
def apply_move (a : App) : Move → Option App
  | Move.next => a.select_next
  | Move.prev => a.select_previous

/-- Run a finite sequence of selection moves, stopping at the first panic. -/
def run_moves (a : App) : List Move → Option App
  | [] => some a
  | m :: ms =>
    match apply_move a m with
    | none => none
    | some a' => run_moves a' ms

/-! ### Helper lemmas -/

lemma getD_of_lt (l : List String) (i : Nat) (h : i < l.length) :
    l.getD i empty_str = l.get ⟨i, h⟩ := by
  rw [List.getD_eq_getElem?_getD, List.getElem?_eq_getElem h]
  rfl

lemma next_index_lt (n i : Nat) (h : n ≠ 0) : next_index n i < n :=
  Nat.mod_lt _ (Nat.pos_of_ne_zero h)

lemma prev_index_lt (n i : Nat) (h1 : 1 ≤ n) (hi : i < n) : prev_index n i < n := by
  unfold prev_index
  split <;> omega

lemma prev_index_int (n i : Nat) (h1 : 1 ≤ n) (hi : i < n) :
    (prev_index n i : ℤ) = ((i : ℤ) - 1 + (n : ℤ)) % (n : ℤ) := by
  unfold prev_index
  by_cases h0 : i = 0
  · subst h0
    rw [if_pos rfl]
    have h2 : (((0 : Nat) : ℤ) - 1 + (n : ℤ)) = (n : ℤ) - 1 := by push_cast; ring
    rw [h2, Int.emod_eq_of_lt (by omega) (by omega)]
    omega
  · rw [if_neg h0]
    have h3 : ((i : ℤ) - 1 + (n : ℤ)) = ((i : ℤ) - 1 + (n : ℤ) * 1) := by ring
    rw [h3, Int.add_mul_emod_self_left, Int.emod_eq_of_lt (by omega) (by omega)]
    omega

lemma prev_index_next_index (n i : Nat) (h1 : 1 ≤ n) (hi : i < n) :
    prev_index n (next_index n i) = i := by
  unfold next_index prev_index
  by_cases h2 : i + 1 = n
  · rw [h2, Nat.mod_self, if_pos rfl]
    omega
  · rw [Nat.mod_eq_of_lt (by omega), if_neg (by omega)]
    omega

lemma next_index_prev_index (n i : Nat) (h1 : 1 ≤ n) (hi : i < n) :
    next_index n (prev_index n i) = i := by
  unfold next_index prev_index
  by_cases h0 : i = 0
  · subst h0
    rw [if_pos rfl]
    have h2 : n - 1 + 1 = n := by omega
    rw [h2, Nat.mod_self]
  · rw [if_neg h0]
    have h2 : i - 1 + 1 = i := by omega
    rw [h2, Nat.mod_eq_of_lt hi]

lemma update_message_eq_some {a a' : App} (h : a.update_message = some a') :
    a'.choices = a.choices ∧ a'.selected_index = a.selected_index ∧
    a'.selected_item = a.selected_item ∧
    a'.selected_message = messages.getD a.selected_index empty_str := by
  unfold App.update_message at h
  split_ifs at h with hm
  · injection h with h'
    subst h'
    exact ⟨rfl, rfl, rfl, (getD_of_lt _ _ hm).symm⟩

lemma update_message_eq (a : App) (hm : a.selected_index < messages.length) :
    a.update_message = some { a with selected_message := messages.getD a.selected_index empty_str } := by
  unfold App.update_message
  rw [dif_pos hm, getD_of_lt _ _ hm]

lemma select_next_eq (a : App) (h0 : a.choices.length ≠ 0)
    (hm : next_index a.choices.length a.selected_index < messages.length) :
    a.select_next = some { a with
      selected_index := next_index a.choices.length a.selected_index,
      selected_message := messages.getD (next_index a.choices.length a.selected_index) empty_str } := by
  unfold App.select_next
  rw [if_neg h0, update_message_eq _ hm]

lemma select_previous_eq (a : App) (h0 : a.choices.length ≠ 0)
    (hm : prev_index a.choices.length a.selected_index < messages.length) :
    a.select_previous = some { a with
      selected_index := prev_index a.choices.length a.selected_index,
      selected_message := messages.getD (prev_index a.choices.length a.selected_index) empty_str } := by
  unfold App.select_previous
  rw [if_neg (by simp [h0]), update_message_eq _ hm]

lemma select_next_eq_some {a a' : App} (h : a.select_next = some a') :
    a'.choices = a.choices ∧
    a'.selected_index = next_index a.choices.length a.selected_index ∧
    a'.selected_item = a.selected_item ∧ a.choices.length ≠ 0 := by
  unfold App.select_next at h
  split_ifs at h with h0
  · obtain ⟨hc, hi, hit, _⟩ := update_message_eq_some h
    exact ⟨hc, hi, hit, h0⟩

lemma select_previous_eq_some {a a' : App} (h : a.select_previous = some a') :
    a'.choices = a.choices ∧
    a'.selected_index = prev_index a.choices.length a.selected_index ∧
    a'.selected_item = a.selected_item := by
  unfold App.select_previous at h
  split_ifs at h with h0
  · obtain ⟨hc, hi, hit, _⟩ := update_message_eq_some h
    exact ⟨hc, hi, hit⟩

lemma confirm_selection_eq_some {a a' : App} (h : a.confirm_selection = some a') :
    a'.choices = a.choices ∧ a'.selected_index = a.selected_index := by
  unfold App.confirm_selection at h
  split_ifs at h with hb
  · obtain ⟨hc, hi, _, _⟩ := update_message_eq_some h
    exact ⟨hc, hi⟩

/-! ### Claims -/

/-- C1 (amended): for every choice list of length n at least 1 and every
state with selected index in [0, n), select_next sets the index to
(i + 1) mod n and select_previous sets it to the zero-branch form, which
equals the modular formula (i - 1 + n) mod n over the integers; each then
recomputes selected_message from the fixed lookup table, provided the
updated index is within that 3-entry table (always the case when n is at
most 3) — otherwise update_message panics instead of recomputing. -/
theorem claim_C1 (a : App) (h1 : 1 ≤ a.choices.length)
    (hi : a.selected_index < a.choices.length)
    (hnext : next_index a.choices.length a.selected_index < messages.length)
    (hprev : prev_index a.choices.length a.selected_index < messages.length) :
    a.select_next = some { a with
      selected_index := (a.selected_index + 1) % a.choices.length,
      selected_message := messages.getD ((a.selected_index + 1) % a.choices.length) empty_str } ∧
    a.select_previous = some { a with
      selected_index := prev_index a.choices.length a.selected_index,
      selected_message := messages.getD (prev_index a.choices.length a.selected_index) empty_str } ∧
    (prev_index a.choices.length a.selected_index : ℤ) =
      ((a.selected_index : ℤ) - 1 + (a.choices.length : ℤ)) % (a.choices.length : ℤ) :=
  ⟨select_next_eq a (by omega) hnext, select_previous_eq a (by omega) hprev,
    prev_index_int a.choices.length a.selected_index h1 hi⟩

/-- Witness for C1 at the app `main` constructs: index 0 over the three
literal choices. -/
theorem claim_C1_witness :
    (App.new main_choices).select_next = some { App.new main_choices with
      selected_index := ((App.new main_choices).selected_index + 1) % (App.new main_choices).choices.length,
      selected_message := messages.getD (((App.new main_choices).selected_index + 1) % (App.new main_choices).choices.length) empty_str } ∧
    (App.new main_choices).select_previous = some { App.new main_choices with
      selected_index := prev_index (App.new main_choices).choices.length (App.new main_choices).selected_index,
      selected_message := messages.getD (prev_index (App.new main_choices).choices.length (App.new main_choices).selected_index) empty_str } ∧
    (prev_index (App.new main_choices).choices.length (App.new main_choices).selected_index : ℤ) =
      (((App.new main_choices).selected_index : ℤ) - 1 + ((App.new main_choices).choices.length : ℤ)) % ((App.new main_choices).choices.length : ℤ) :=
  claim_C1 (App.new main_choices) (by decide) (by decide) (by decide) (by decide)

/-- A state with four choices and selected index 2: in bounds for the
choice list, but select_next moves to index 3, outside the fixed 3-entry
message table. -/
def cex_app_next : App :=
  { selected_index := 2, selected_item := empty_str, selected_message := empty_str,
    choices := ["a", "b", "c", "d"] }

/-- Counterexample to C1 as stated: a valid state over a 4-element choice
list for which select_next panics in update_message (modelled as `none`)
instead of recomputing the message. -/
theorem claim_C1_cex :
    1 ≤ cex_app_next.choices.length ∧
    cex_app_next.selected_index < cex_app_next.choices.length ∧
    cex_app_next.select_next = none := by decide

/-- C2: for the choice list the App is actually constructed with in `main`
(the only construction in the program), the message table of
update_message has exactly as many entries as there are choices, every
index below the choice count is in bounds for the table, and the table is
positionally aligned with the choices. -/
theorem claim_C2 :
    messages.length = (App.new main_choices).choices.length ∧
    (∀ i, i < (App.new main_choices).choices.length →
      (App.update_message { App.new main_choices with selected_index := i }).isSome = true) ∧
    (∀ i, i < (App.new main_choices).choices.length →
      messages.getD i empty_str = ("You selected ") ++ main_choices.getD i empty_str ++ ("!")) := by
  decide

/-- Witness for C2 at index 1. -/
theorem claim_C2_witness :
    (App.update_message { App.new main_choices with selected_index := 1 }).isSome = true :=
  claim_C2.2.1 1 (by decide)

/-- C3 (amended): for every state with selected index in [0, len(choices))
and a non-empty choice list, provided the selected index is also within
the fixed 3-entry message table (always the case when len(choices) is at
most 3), confirm_selection copies choices[selected_index] into
selected_item and recomputes selected_message from the table; outside the
table, update_message panics instead. -/
theorem claim_C3 (a : App) (_h1 : 1 ≤ a.choices.length)
    (hi : a.selected_index < a.choices.length)
    (hm : a.selected_index < messages.length) :
    a.confirm_selection = some { a with
      selected_item := a.choices.getD a.selected_index empty_str,
      selected_message := messages.getD a.selected_index empty_str } := by
  unfold App.confirm_selection
  rw [dif_pos hi,
    update_message_eq { a with selected_item := a.choices.get ⟨a.selected_index, hi⟩ } hm,
    getD_of_lt _ _ hi]

/-- Witness for C3 at the app `main` constructs: index 0 over the three
literal choices. -/
theorem claim_C3_witness :
    (App.new main_choices).confirm_selection = some { App.new main_choices with
      selected_item := (App.new main_choices).choices.getD (App.new main_choices).selected_index empty_str,
      selected_message := messages.getD (App.new main_choices).selected_index empty_str } :=
  claim_C3 (App.new main_choices) (by decide) (by decide) (by decide)

/-- A state with four choices and selected index 3: in bounds for the
choice list, but outside the fixed 3-entry message table. -/
def cex_app_confirm : App :=
  { selected_index := 3, selected_item := empty_str, selected_message := empty_str,
    choices := ["A", "B", "C", "D"] }

/-- Counterexample to C3 as stated: a valid state over a 4-element choice
list for which confirm_selection panics in update_message (modelled as
`none`) instead of producing the claimed post-state. -/
theorem claim_C3_cex :
    1 ≤ cex_app_confirm.choices.length ∧
    cex_app_confirm.selected_index < cex_app_confirm.choices.length ∧
    cex_app_confirm.confirm_selection = none := by decide

/-- C4: over any finite sequence of select_next / select_previous calls
starting from a state with a non-empty choice list and an in-range index,
every state actually reached keeps selected_index in [0, n) and keeps the
choice list unchanged (a panic inside update_message aborts the run and
reaches no further state). -/
theorem claim_C4 (moves : List Move) (a a' : App)
    (h1 : 1 ≤ a.choices.length) (hi : a.selected_index < a.choices.length)
    (h : run_moves a moves = some a') :
    a'.selected_index < a.choices.length ∧ a'.choices = a.choices := by
  induction moves generalizing a with
  | nil =>
    unfold run_moves at h
    injection h with h'
    subst h'
    exact ⟨hi, rfl⟩
  | cons m ms ih =>
    unfold run_moves at h
    cases hb : apply_move a m with
    | none => rw [hb] at h; cases h
    | some b =>
      rw [hb] at h
      have hbfacts : b.choices = a.choices ∧ b.selected_index < a.choices.length := by
        cases m with
        | next =>
          obtain ⟨hc, hidx, _, h0⟩ := select_next_eq_some hb
          exact ⟨hc, hidx ▸ next_index_lt _ _ h0⟩
        | prev =>
          obtain ⟨hc, hidx, _⟩ := select_previous_eq_some hb
          exact ⟨hc, hidx ▸ prev_index_lt _ _ h1 hi⟩
      obtain ⟨hc, hblt⟩ := hbfacts
      have hih := ih b (by rw [hc]; exact h1) (by rw [hc]; exact hblt) h
      rw [hc] at hih
      exact hih

/-- Result of running next, next, prev from the initial state of `main`. -/
def c4_result : App :=
  { selected_index := 1, selected_item := empty_str,
    selected_message := "You selected Choice 2!", choices := main_choices }

/-- Witness for C4 on the move sequence next, next, prev from the state
`main` constructs. -/
theorem claim_C4_witness :
    c4_result.selected_index < (App.new main_choices).choices.length ∧
    c4_result.choices = (App.new main_choices).choices :=
  claim_C4 [Move.next, Move.next, Move.prev] (App.new main_choices) c4_result
    (by decide) (by decide) (by decide)

/-- C5 (amended): for every non-empty choice list and in-range starting
index, provided the indices visited stay within the fixed 3-entry message
table (always the case when the list has at most 3 entries), select_next
followed by select_previous — and vice versa — returns selected_index to
its original value; moreover the two index-update maps used by the code
are mutually inverse on [0, n) for every n at least 1. When an
intermediate index falls outside the table, update_message panics and the
round trip aborts instead. -/
theorem claim_C5 (a : App) (h1 : 1 ≤ a.choices.length)
    (hi : a.selected_index < a.choices.length)
    (hmi : a.selected_index < messages.length)
    (hmn : next_index a.choices.length a.selected_index < messages.length)
    (hmp : prev_index a.choices.length a.selected_index < messages.length) :
    (∃ b b', a.select_next = some b ∧ b.select_previous = some b' ∧
      b'.selected_index = a.selected_index) ∧
    (∃ c c', a.select_previous = some c ∧ c.select_next = some c' ∧
      c'.selected_index = a.selected_index) ∧
    prev_index a.choices.length (next_index a.choices.length a.selected_index) = a.selected_index ∧
    next_index a.choices.length (prev_index a.choices.length a.selected_index) = a.selected_index := by
  have h0 : a.choices.length ≠ 0 := by omega
  have hpn := prev_index_next_index a.choices.length a.selected_index h1 hi
  have hnp := next_index_prev_index a.choices.length a.selected_index h1 hi
  refine ⟨?_, ?_, hpn, hnp⟩
  · refine ⟨_, _, select_next_eq a h0 hmn, select_previous_eq _ h0 (by simpa [hpn] using hmi), ?_⟩
    simpa using hpn
  · refine ⟨_, _, select_previous_eq a h0 hmp, select_next_eq _ h0 (by simpa [hnp] using hmi), ?_⟩
    simpa using hnp

/-- Witness for C5 at the app `main` constructs: index 0 over the three
literal choices. -/
theorem claim_C5_witness :
    (∃ b b', (App.new main_choices).select_next = some b ∧ b.select_previous = some b' ∧
      b'.selected_index = (App.new main_choices).selected_index) ∧
    (∃ c c', (App.new main_choices).select_previous = some c ∧ c.select_next = some c' ∧
      c'.selected_index = (App.new main_choices).selected_index) ∧
    prev_index (App.new main_choices).choices.length
      (next_index (App.new main_choices).choices.length (App.new main_choices).selected_index) =
      (App.new main_choices).selected_index ∧
    next_index (App.new main_choices).choices.length
      (prev_index (App.new main_choices).choices.length (App.new main_choices).selected_index) =
      (App.new main_choices).selected_index :=
  claim_C5 (App.new main_choices) (by decide) (by decide) (by decide) (by decide) (by decide)

/-- A state with five choices and selected index 3: select_next moves to
index 4, outside the fixed 3-entry message table. -/
def cex_app_round : App :=
  { selected_index := 3, selected_item := empty_str, selected_message := empty_str,
    choices := ["p", "q", "r", "s", "t"] }

/-- Counterexample to C5 as stated: a valid state over a 5-element choice
list for which select_next panics (modelled as `none`), so select_next
followed by select_previous aborts and never restores the index. -/
theorem claim_C5_cex :
    1 ≤ cex_app_round.choices.length ∧
    cex_app_round.selected_index < cex_app_round.choices.length ∧
    Option.bind cex_app_round.select_next App.select_previous = none := by decide

/-- C6: from any state, a key-press event with code Escape makes the loop
exit with the state unchanged (no field is mutated), the remaining inputs
are never processed, and the process terminates with success status. -/
theorem claim_C6 (a : App) (rest : List LoopInput) :
    run_loop a (LoopInput.key esc_press :: rest) = LoopResult.exit_ok a ∧
    exit_success (run_loop a (LoopInput.key esc_press :: rest)) = some true :=
  ⟨rfl, rfl⟩

/-- C7: a key event that is not of press kind, or whose code is none of
Escape, ArrowUp, ArrowDown, Enter, leaves the state exactly unchanged and
does not signal exit. -/
theorem claim_C7 (a : App) (k : KeyEvent)
    (h : k.kind ≠ KeyEventKind.press ∨ k.code = KeyCode.other ∨ ∃ c, k.code = KeyCode.char c) :
    handle_key_event a k = some (a, false) := by
  by_cases hk : k.kind = KeyEventKind.press
  · rcases h with h | h | ⟨c, h⟩
    · exact absurd hk h
    · simp [handle_key_event, hk, h]
    · simp [handle_key_event, hk, h]
  · simp [handle_key_event, hk]

/-- Witness for C7: a press of a key outside the four recognized codes,
at the state `main` constructs. -/
theorem claim_C7_witness :
    handle_key_event (App.new main_choices)
      { code := KeyCode.other, kind := KeyEventKind.press } =
      some (App.new main_choices, false) :=
  claim_C7 (App.new main_choices) { code := KeyCode.other, kind := KeyEventKind.press }
    (Or.inr (Or.inl rfl))

/-- State after the first ArrowDown of the C8 scenario. -/
def c8_a1 : App :=
  { selected_index := 1, selected_item := empty_str,
    selected_message := "You selected Choice 2!", choices := main_choices }

/-- State after the second ArrowDown of the C8 scenario. -/
def c8_a2 : App :=
  { selected_index := 2, selected_item := empty_str,
    selected_message := "You selected Choice 3!", choices := main_choices }

/-- State after the third ArrowDown of the C8 scenario (wrap to 0). -/
def c8_a3 : App :=
  { selected_index := 0, selected_item := empty_str,
    selected_message := "You selected Choice 1!", choices := main_choices }

/-- State after the ArrowUp of the C8 scenario (wrap to 2). -/
def c8_a4 : App :=
  { selected_index := 2, selected_item := empty_str,
    selected_message := "You selected Choice 3!", choices := main_choices }

/-- State after the Enter of the C8 scenario. -/
def c8_a5 : App :=
  { selected_index := 2, selected_item := "Choice 3",
    selected_message := "You selected Choice 3!", choices := main_choices }

/-- C8: the concrete scenario. From the state `main` constructs, Down
moves to index 1 with message for Choice 2, Down to index 2, Down wraps to
index 0, Up wraps to index 2, Enter confirms Choice 3, and Escape ends the
loop with success status. -/
theorem claim_C8 :
    handle_key_event (App.new main_choices) down_press = some (c8_a1, false) ∧
    c8_a1.selected_index = 1 ∧ c8_a1.selected_message = ("You selected Choice 2!") ∧
    handle_key_event c8_a1 down_press = some (c8_a2, false) ∧ c8_a2.selected_index = 2 ∧
    handle_key_event c8_a2 down_press = some (c8_a3, false) ∧ c8_a3.selected_index = 0 ∧
    handle_key_event c8_a3 up_press = some (c8_a4, false) ∧ c8_a4.selected_index = 2 ∧
    handle_key_event c8_a4 enter_press = some (c8_a5, false) ∧ c8_a5.selected_item = ("Choice 3") ∧
    run_loop (App.new main_choices)
      [LoopInput.key down_press, LoopInput.key down_press, LoopInput.key down_press,
        LoopInput.key up_press, LoopInput.key enter_press, LoopInput.key esc_press] =
      LoopResult.exit_ok c8_a5 ∧
    exit_success (LoopResult.exit_ok c8_a5) = some true := by decide

/-- C9 (amended): a failure of `event::poll` or `event::read` is
propagated with the `?` operator to the top level of `main` and the
process terminates with a non-zero status; a failure of `terminal.draw`
is not propagated: `AppPresenter::render` unwraps it, so the process
panics at the render call site — which also terminates the process with a
non-zero status and a message, but outside the error channel. -/
theorem claim_C9 (a : App) (m : String) (rest : List LoopInput) :
    run_loop a (LoopInput.poll_fail m :: rest) = LoopResult.err_prop m ∧
    run_loop a (LoopInput.read_fail m :: rest) = LoopResult.err_prop m ∧
    run_loop a (LoopInput.draw_fail m :: rest) = LoopResult.panicked m ∧
    exit_success (LoopResult.err_prop m) = some false ∧
    exit_success (LoopResult.panicked m) = some false :=
  ⟨rfl, rfl, rfl, rfl, rfl⟩

/-- The error message of a failing draw used in the C9 counterexample. -/
def boom_msg : String := "draw failed"

/-- Counterexample to C9 as stated: a draw failure makes the loop end in a
panic, which is not the propagated-error outcome, so not every terminal
I/O failure is propagated as an error to the top level. -/
theorem claim_C9_cex :
    run_loop (App.new main_choices) [LoopInput.draw_fail boom_msg] =
      LoopResult.panicked boom_msg ∧
    LoopResult.panicked boom_msg ≠ LoopResult.err_prop boom_msg ∧
    exit_success (LoopResult.panicked boom_msg) = some false := by decide

/-- C10: frame conditions. select_next and select_previous never change
choices or selected_item; confirm_selection never changes choices or
selected_index; update_message changes neither choices, selected_index
nor selected_item — so choices is never mutated by any operation. -/
theorem claim_C10 (a a' : App) :
    (a.select_next = some a' → a'.choices = a.choices ∧ a'.selected_item = a.selected_item) ∧
    (a.select_previous = some a' → a'.choices = a.choices ∧ a'.selected_item = a.selected_item) ∧
    (a.confirm_selection = some a' → a'.choices = a.choices ∧ a'.selected_index = a.selected_index) ∧
    (a.update_message = some a' → a'.choices = a.choices ∧ a'.selected_index = a.selected_index ∧
      a'.selected_item = a.selected_item) := by
  refine ⟨fun h => ?_, fun h => ?_, fun h => ?_, fun h => ?_⟩
  · obtain ⟨hc, _, hit, _⟩ := select_next_eq_some h
    exact ⟨hc, hit⟩
  · obtain ⟨hc, _, hit⟩ := select_previous_eq_some h
    exact ⟨hc, hit⟩
  · exact confirm_selection_eq_some h
  · obtain ⟨hc, hi, hit, _⟩ := update_message_eq_some h
    exact ⟨hc, hi, hit⟩

/-- Result of update_message on the state `main` constructs, used as the
C10 witness instance. -/
def c10_b : App :=
  { selected_index := 0, selected_item := empty_str,
    selected_message := "You selected Choice 1!", choices := main_choices }

/-- Witness for C10: update_message at the state `main` constructs leaves
choices, selected_index and selected_item unchanged. -/
theorem claim_C10_witness :
    c10_b.choices = (App.new main_choices).choices ∧
    c10_b.selected_index = (App.new main_choices).selected_index ∧
    c10_b.selected_item = (App.new main_choices).selected_item :=
  (claim_C10 (App.new main_choices) c10_b).2.2.2 (by decide)
